import Mathlib

/-!
Verification of the coglet prediction-worker runtime (replicate/cog-runtime,
Python side) against its natural-language specification.

The development shallowly embeds the Python modules under
src/python/coglet/ — adt.py, util.py, api.py, inspector.py, runner.py,
file_runner.py, scope.py and coglet/__main__.py — as executable Lean
definitions, and proves or refutes the spec claims about them.

Python values are modelled by the inductive type PyVal, Python exceptions by
PyErr.  Machine floats are modelled as exact rationals: every claim below is
about type coercion and control flow, never about rounding, and all concrete
inputs used in theorems are small integers or short strings.
-/

namespace Coglet

/-- Python exceptions that the embedded code can raise. -/
inductive PyErr where
  | typeError
  | valueError
  | assertionError
  | keyError (k : String)
  deriving DecidableEq, Repr

/-- api.Secret (api.py lines 54-65): a frozen dataclass holding an optional
secret string. -/
structure Secret where
  secret_value : Option String := none
  deriving DecidableEq, Repr

/-- Secret.__str__ (api.py lines 61-62): the mask when a value is present, the
empty string otherwise. -/
def Secret.str (s : Secret) : String :=
  if s.secret_value.isSome then "**********" else ""

/-- Secret.get_secret_value (api.py lines 64-65). -/
def Secret.get_secret_value (s : Secret) : Option String :=
  s.secret_value

/-- Python runtime values, restricted to the types the coglet type model
handles: bool, int, float (as an exact rational), str, cog.Path (the payload
string; pathlib's separator normalisation is not modelled and never exercised),
cog.Secret, None and list.  vSecretO is a Secret whose payload is not an
Optional string (the dataclass constructor accepts any payload). -/
inductive PyVal where
  | vBool (b : Bool)
  | vInt (n : Int)
  | vFloat (q : Rat)
  | vStr (s : String)
  | vPath (s : String)
  | vSecret (s : Secret)
  | vSecretO (v : PyVal)
  | vNone
  | vList (xs : List PyVal)

/-- Numeric view of a value: Python treats bool as the integers 0 and 1 for
arithmetic and equality. -/
def pyNum : PyVal → Option Rat
  | .vBool b => some (if b then 1 else 0)
  | .vInt n => some (n : Rat)
  | .vFloat q => some q
  | _ => none

mutual

/-- Python equality on the embedded values: numeric kinds compare by value
(True == 1, 1 == 1.0), strings, paths and secrets compare structurally, and
values of unrelated kinds are unequal. -/
def pyEq : PyVal → PyVal → Bool
  | .vStr s, .vStr t => s == t
  | .vPath s, .vPath t => s == t
  | .vSecret s, .vSecret t => decide (s = t)
  | .vSecretO x, .vSecretO y => pyEq x y
  | .vNone, .vNone => true
  | .vList xs, .vList ys => pyEqList xs ys
  | a, b =>
    match pyNum a, pyNum b with
    | some x, some y => decide (x = y)
    | _, _ => false

/-- Elementwise Python equality of lists. -/
def pyEqList : List PyVal → List PyVal → Bool
  | [], [] => true
  | x :: xs, y :: ys => pyEq x y && pyEqList xs ys
  | _, _ => false

end

/-- Python bool(x) on the embedded values (truthiness). -/
def pyBool : PyVal → Bool
  | .vBool b => b
  | .vInt n => n != 0
  | .vFloat q => q != 0
  | .vStr s => s != ""
  | .vPath _ => true
  | .vSecret _ => true
  | .vSecretO _ => true
  | .vNone => false
  | .vList xs => !xs.isEmpty

/-- Decimal digits of a numeral string, if it consists of one or more digits. -/
def natOfDigits : List Char → Option Nat
  | [] => none
  | cs =>
    if cs.all Char.isDigit then
      some (cs.foldl (fun acc c => acc * 10 + (c.toNat - 48)) 0)
    else none

/-- Python int(s) for a string: an optional sign followed by digits.
Surrounding whitespace and underscore separators accepted by CPython are not
modelled (never exercised by the claims). -/
def intOfPyStr (s : String) : Option Int :=
  match s.data with
  | '-' :: rest => (natOfDigits rest).map (fun n => -(n : Int))
  | '+' :: rest => (natOfDigits rest).map (fun n => (n : Int))
  | cs => (natOfDigits cs).map (fun n => (n : Int))

/-- Python float(s) for a string: an optional sign, digits, and an optional
fractional part, read as an exact rational.  Exponents, specials and
whitespace are not modelled (never exercised by the claims). -/
def ratOfPyStr (s : String) : Option Rat :=
  let core : List Char → Option Rat := fun cs =>
    match cs.splitOn '.' with
    | [whole] => (natOfDigits whole).map (fun n => (n : Rat))
    | [whole, frac] =>
      match natOfDigits whole, natOfDigits frac with
      | some w, some f => some ((w : Rat) + (f : Rat) / ((10 : Rat) ^ frac.length))
      | _, _ => none
    | _ => none
  match s.data with
  | '-' :: rest => (core rest).map (fun q => -q)
  | '+' :: rest => core rest
  | cs => core cs

/-- Python float(x): numbers convert by value, numeral strings parse, and
every other type raises TypeError. -/
def pyFloat : PyVal → Except PyErr Rat
  | .vBool b => .ok (if b then 1 else 0)
  | .vInt n => .ok (n : Rat)
  | .vFloat q => .ok q
  | .vStr s =>
    match ratOfPyStr s with
    | some q => .ok q
    | none => .error .valueError
  | _ => .error .typeError

/-- Truncation toward zero, as Python int(float) performs. -/
def ratTrunc (q : Rat) : Int :=
  if 0 ≤ q.num then ((q.num.toNat / q.den : Nat) : Int)
  else -(((-q.num).toNat / q.den : Nat) : Int)

/-- Python int(x): bools and ints convert by value, floats truncate toward
zero, numeral strings parse (ValueError otherwise), and every other type
raises TypeError. -/
def pyInt : PyVal → Except PyErr Int
  | .vBool b => .ok (if b then 1 else 0)
  | .vInt n => .ok n
  | .vFloat q => .ok (ratTrunc q)
  | .vStr s =>
    match intOfPyStr s with
    | some n => .ok n
    | none => .error .valueError
  | _ => .error .typeError

/-- Python str(x) for the values the embedding consumes: strings and paths
yield their payload and secrets yield Secret.__str__.  The renderings of
numbers matter only to equality tests against non-strings, which are false
regardless, and lists are never rendered by the claims. -/
def pyStr : PyVal → String
  | .vStr s => s
  | .vPath s => s
  | .vSecret s => s.str
  | .vSecretO _ => "**********"
  | .vBool b => if b then "True" else "False"
  | .vInt n => toString n
  | .vFloat q => toString q
  | .vNone => "None"
  | .vList _ => ""

/-- adt.PrimitiveType (adt.py lines 11-18). -/
inductive PrimitiveType where
  | BOOL
  | FLOAT
  | INTEGER
  | STRING
  | PATH
  | SECRET
  | CUSTOM
  deriving DecidableEq, Repr

/-- PrimitiveType.normalize (adt.py lines 59-70): custom values pass through;
path and secret values pass through when already of the wrapper type and are
otherwise built with the wrapper constructor (pathlib rejects non-strings with
TypeError, the Secret dataclass accepts anything); every other primitive casts
with the Python constructor and then asserts the cast value equals the
original, raising AssertionError when it does not. -/
def PrimitiveType.normalize (pt : PrimitiveType) (value : PyVal) : Except PyErr PyVal :=
  match pt with
  | .CUSTOM => .ok value
  | .PATH =>
    match value with
    | .vPath _ => .ok value
    | .vStr s => .ok (.vPath s)
    | _ => .error .typeError
  | .SECRET =>
    match value with
    | .vSecret _ => .ok value
    | .vSecretO _ => .ok value
    | .vNone => .ok (.vSecret { secret_value := none })
    | .vStr s => .ok (.vSecret { secret_value := some s })
    | v => .ok (.vSecretO v)
  | .BOOL =>
    let b := pyBool value
    if pyEq (.vBool b) value then .ok (.vBool b) else .error .assertionError
  | .FLOAT =>
    match pyFloat value with
    | .ok q => if pyEq (.vFloat q) value then .ok (.vFloat q) else .error .assertionError
    | .error e => .error e
  | .INTEGER =>
    match pyInt value with
    | .ok n => if pyEq (.vInt n) value then .ok (.vInt n) else .error .assertionError
    | .error e => .error e
  | .STRING =>
    let s := pyStr value
    if pyEq (.vStr s) value then .ok (.vStr s) else .error .assertionError

namespace util

/-- PYTHON_TO_COG.get(type(value)) (adt.py of the cog.internal module, lines
39-46, which coglet/util.py refers to): the primitive a Python runtime type
maps to, none for unregistered types. -/
def pyTypeToCog : PyVal → Option PrimitiveType
  | .vBool _ => some .BOOL
  | .vInt _ => some .INTEGER
  | .vFloat _ => some .FLOAT
  | .vStr _ => some .STRING
  | .vPath _ => some .PATH
  | .vSecret _ => some .SECRET
  | .vSecretO _ => some .SECRET
  | .vNone => none
  | .vList _ => none

/-- util.check_value (util.py lines 27-39): a pure type test.  Float accepts
the numeric types, path and secret accept a string or the wrapper itself,
custom accepts unknown types when a coder exists, and everything else demands
the exact primitive. -/
def check_value (expected : PrimitiveType) (value : PyVal) (coder : Bool) : Bool :=
  match pyTypeToCog value with
  | none => expected == .CUSTOM && coder
  | some cog_t =>
    if expected == .FLOAT then cog_t == .FLOAT || cog_t == .INTEGER
    else if expected == .PATH then cog_t == .STRING || cog_t == .PATH
    else if expected == .SECRET then cog_t == .STRING || cog_t == .SECRET
    else cog_t == expected

/-- util.json_value (util.py lines 42-48): float(value) for floats,
str(value) for paths and secrets, identity otherwise. -/
def json_value (expected : PrimitiveType) (value : PyVal) : Except PyErr PyVal :=
  if expected == .FLOAT then
    match pyFloat value with
    | .ok q => .ok (.vFloat q)
    | .error e => .error e
  else if expected == .PATH || expected == .SECRET then .ok (.vStr (pyStr value))
  else .ok value

/-- util.normalize_value (util.py lines 51-59): float(value) for floats, wrap
a plain string for paths and secrets (other values pass through untouched),
identity otherwise. -/
def normalize_value (expected : PrimitiveType) (value : PyVal) : Except PyErr PyVal :=
  if expected == .FLOAT then
    match pyFloat value with
    | .ok q => .ok (.vFloat q)
    | .error e => .error e
  else if expected == .PATH then
    .ok (match value with | .vStr s => .vPath s | v => v)
  else if expected == .SECRET then
    .ok (match value with | .vStr s => .vSecret { secret_value := some s } | v => v)
  else .ok value

end util

/-- adt.Repetition (adt.py lines 92-95). -/
inductive Repetition where
  | REQUIRED
  | OPTIONAL
  | REPEATED
  deriving DecidableEq, Repr

/-- adt.Input (adt.py lines 170-182), with the FieldType inlined as its
primitive, repetition and coder availability.  A Python default of None
(meaning "no default") is the Option none. -/
structure AdtInput where
  name : String
  order : Nat
  primitive : PrimitiveType
  repetition : Repetition
  hasCoder : Bool := false
  default : Option PyVal := none
  ge : Option Rat := none
  le : Option Rat := none
  min_length : Option Nat := none
  max_length : Option Nat := none
  regex : Option String := none
  choices : Option (List PyVal) := none

/-- Python iteration over a value, as the validation comprehensions perform:
lists yield their elements, strings yield their characters as one-character
strings, and every other embedded value raises TypeError. -/
def pyIter : PyVal → Except PyErr (List PyVal)
  | .vList xs => .ok xs
  | .vStr s => .ok (s.data.map fun c => .vStr (String.mk [c]))
  | _ => .error .typeError

/-- re.match(pattern, x) as the validators call it: a non-string argument
raises TypeError, and the match itself is modelled for plain literal patterns
(an anchored prefix test).  No claim below exercises a regex constraint, so
the pattern argument is always absent in the theorems. -/
def pyMatch (pattern : String) (v : PyVal) : Except PyErr Bool :=
  match v with
  | .vStr s => .ok (pattern.isPrefixOf s)
  | _ => .error .typeError

/-- Python all(...) over a short-circuiting effectful predicate. -/
def pyAll (f : PyVal → Except PyErr Bool) : List PyVal → Except PyErr Bool
  | [] => .ok true
  | x :: xs =>
    match f x with
    | .ok true => pyAll f xs
    | .ok false => .ok false
    | .error e => .error e

/-- Dict assignment d[k] = v on an association list: replace the entry if the
key is present, append otherwise. -/
def dictSet (kw : List (String × PyVal)) (k : String) (v : PyVal) : List (String × PyVal) :=
  match kw with
  | [] => [(k, v)]
  | (k0, v0) :: rest => if k0 == k then (k0, v) :: rest else (k0, v0) :: dictSet rest k v

namespace inspector

/-- First loop of inspector.check_input (inspector.py lines 203-217): look the
name up among the declared inputs (AssertionError for an unknown field), type
check the value (elementwise for repeated fields) and normalise it. -/
def checkOne (adt_ins : List AdtInput) (name : String) (value : PyVal) :
    Except PyErr PyVal :=
  match adt_ins.find? (fun i => i.name == name) with
  | none => .error .assertionError
  | some adt_in =>
    let cog_t := adt_in.primitive
    if adt_in.repetition == .REPEATED then
      match pyIter value with
      | .error e => .error e
      | .ok xs =>
        if xs.all (fun v => util.check_value cog_t v adt_in.hasCoder) then
          match xs.mapM (util.normalize_value cog_t) with
          | .ok ys => .ok (.vList ys)
          | .error e => .error e
        else .error .assertionError
    else
      if util.check_value cog_t value adt_in.hasCoder then
        util.normalize_value cog_t value
      else .error .assertionError

/-- Second loop of inspector.check_input (inspector.py lines 218-257) for one
declared input: fill a missing input with its default, then run the constraint
section.  The ge/le/min_length/max_length checks in the source are
`assert (x >= adt_in.ge for x in values)` and friends — each asserts a
generator object, which is always truthy, so no comparison ever runs; they are
therefore no-ops here.  Likewise the missing-input check for non-optional
fields is `assert adt_in.default is not None or adt_in`, and a dataclass
instance is always truthy, so it can never fail. -/
def fillOne (kw : List (String × PyVal)) (adt_in : AdtInput) :
    Except PyErr (List (String × PyVal)) :=
  let kw :=
    if (kw.lookup adt_in.name).isNone then
      dictSet kw adt_in.name (adt_in.default.getD .vNone)
    else kw
  let v := (kw.lookup adt_in.name).getD .vNone
  let valuesV : PyVal :=
    if adt_in.repetition == .REPEATED then v else .vList [v]
  match adt_in.regex with
  | some pattern =>
    (match pyIter valuesV with
     | .error e => .error e
     | .ok xs =>
       match pyAll (fun x => pyMatch pattern x) xs with
       | .error e => .error e
       | .ok true =>
         match adt_in.choices with
         | some cs =>
           (match pyIter valuesV with
            | .error e => .error e
            | .ok xs =>
              match pyAll (fun x => .ok (cs.any (pyEq x))) xs with
              | .ok true => .ok kw
              | .ok false => .error .assertionError
              | .error e => .error e)
         | none => .ok kw
       | .ok false => .error .assertionError)
  | none =>
    match adt_in.choices with
    | some cs =>
      (match pyIter valuesV with
       | .error e => .error e
       | .ok xs =>
         match pyAll (fun x => .ok (cs.any (pyEq x))) xs with
         | .ok true => .ok kw
         | .ok false => .error .assertionError
         | .error e => .error e)
    | none => .ok kw

/-- inspector.check_input (inspector.py lines 199-258): validate the request
inputs against the declared input specs and return the keyword arguments for
the user predict function. -/
def check_input (adt_ins : List AdtInput) (inputs : List (String × PyVal)) :
    Except PyErr (List (String × PyVal)) :=
  let rec phase1 (kw : List (String × PyVal)) :
      List (String × PyVal) → Except PyErr (List (String × PyVal))
    | [] => .ok kw
    | (name, value) :: rest =>
      match checkOne adt_ins name value with
      | .error e => .error e
      | .ok v => phase1 (dictSet kw name v) rest
  let rec phase2 (kw : List (String × PyVal)) :
      List AdtInput → Except PyErr (List (String × PyVal))
    | [] => .ok kw
    | adt_in :: rest =>
      match fillOne kw adt_in with
      | .error e => .error e
      | .ok kw => phase2 kw rest
  match phase1 [] inputs with
  | .error e => .error e
  | .ok kw => phase2 kw adt_ins

end inspector

namespace runner

/-- adt.Input of the older adt module that runner.py addresses (cog/internal
adt.py lines 75-88): a bare primitive plus an is_list flag instead of a
FieldType. -/
structure OldInput where
  name : String
  order : Nat
  tpe : PrimitiveType
  is_list : Bool := false
  default : Option PyVal := none
  ge : Option Rat := none
  le : Option Rat := none
  min_length : Option Nat := none
  max_length : Option Nat := none
  regex : Option String := none
  choices : Option (List PyVal) := none

/-- First loop of runner._kwargs (runner.py lines 13-27).  runner.py passes
two positional arguments to check_value; the two-parameter form is
cog/internal/util.check_value, which behaves as the coglet version with no
coder. -/
def kwargsOne (adt_ins : List OldInput) (name : String) (value : PyVal) :
    Except PyErr PyVal :=
  match adt_ins.find? (fun i => i.name == name) with
  | none => .error .assertionError
  | some adt_in =>
    let cog_t := adt_in.tpe
    if adt_in.is_list then
      match pyIter value with
      | .error e => .error e
      | .ok xs =>
        if xs.all (fun v => util.check_value cog_t v false) then
          match xs.mapM (util.normalize_value cog_t) with
          | .ok ys => .ok (.vList ys)
          | .error e => .error e
        else .error .assertionError
    else
      if util.check_value cog_t value false then
        util.normalize_value cog_t value
      else .error .assertionError

/-- Second loop of runner._kwargs (runner.py lines 28-61) for one declared
input: a missing input requires a declared default (AssertionError otherwise,
with no carve-out for optional fields), then the constraint section runs.  As
in inspector.check_input, the ge/le/min_length/max_length asserts apply to
generator expressions and are no-ops. -/
def kwargsFill (kw : List (String × PyVal)) (adt_in : OldInput) :
    Except PyErr (List (String × PyVal)) :=
  match
    (if (kw.lookup adt_in.name).isNone then
      match adt_in.default with
      | none => .error .assertionError
      | some d => .ok (dictSet kw adt_in.name d)
     else .ok kw : Except PyErr (List (String × PyVal))) with
  | .error e => .error e
  | .ok kw =>
    let v := (kw.lookup adt_in.name).getD .vNone
    let valuesV : PyVal := if adt_in.is_list then v else .vList [v]
    match adt_in.regex with
    | some pattern =>
      (match pyIter valuesV with
       | .error e => .error e
       | .ok xs =>
         match pyAll (fun x => pyMatch pattern x) xs with
         | .error e => .error e
         | .ok true =>
           match adt_in.choices with
           | some cs =>
             (match pyIter valuesV with
              | .error e => .error e
              | .ok xs =>
                match pyAll (fun x => .ok (cs.any (pyEq x))) xs with
                | .ok true => .ok kw
                | .ok false => .error .assertionError
                | .error e => .error e)
           | none => .ok kw
         | .ok false => .error .assertionError)
    | none =>
      match adt_in.choices with
      | some cs =>
        (match pyIter valuesV with
         | .error e => .error e
         | .ok xs =>
           match pyAll (fun x => .ok (cs.any (pyEq x))) xs with
           | .ok true => .ok kw
           | .ok false => .error .assertionError
           | .error e => .error e)
      | none => .ok kw

/-- runner._kwargs (runner.py lines 11-62): the invoker-side input validation,
same two-phase shape as inspector.check_input. -/
def _kwargs (adt_ins : List OldInput) (inputs : List (String × PyVal)) :
    Except PyErr (List (String × PyVal)) :=
  let rec phase1 (kw : List (String × PyVal)) :
      List (String × PyVal) → Except PyErr (List (String × PyVal))
    | [] => .ok kw
    | (name, value) :: rest =>
      match kwargsOne adt_ins name value with
      | .error e => .error e
      | .ok v => phase1 (dictSet kw name v) rest
  let rec phase2 (kw : List (String × PyVal)) :
      List OldInput → Except PyErr (List (String × PyVal))
    | [] => .ok kw
    | adt_in :: rest =>
      match kwargsFill kw adt_in with
      | .error e => .error e
      | .ok kw => phase2 kw rest
  match phase1 [] inputs with
  | .error e => .error e
  | .ok kw => phase2 kw adt_ins

end runner

namespace file_runner

/-- IPC status notifications (file_runner.py lines 28-31). -/
inductive Ipc where
  | ready
  | busy
  | output
  deriving DecidableEq, Repr

/-- A parsed request body.  The main loop never inspects it; it is handed to
the prediction task unchanged. -/
structure Req where
  webhook : Option String := none
  deriving DecidableEq, Repr

/-- One directory entry as the main loop classifies it (file_runner.py lines
126-158): a name matching CANCEL_RE, a name matching REQUEST_RE — whose
content is the json.load result, none when the file is not valid JSON — or
any other name, which the loop skips. -/
inductive DirEntry where
  | cancelFile (pid : String)
  | requestFile (pid : String) (content : Option Req)
  | otherFile (name : String)
  deriving DecidableEq, Repr

/-- State of the main loop (file_runner.py lines 106-168): the pids of the
pending task table in insertion order, the ready flag, the log of IPC sends,
and the pids whose tasks have had cancellation requested. -/
structure LoopState where
  pending : List String
  ready : Bool
  sent : List Ipc
  canceled : List String
  deriving DecidableEq, Repr

/-- pending[pid] = task on the pid table: a dict update keeps the position of
an existing key and appends a new one. -/
def insertPid (pending : List String) (pid : String) : List String :=
  if pending.contains pid then pending else pending ++ [pid]

/-- Loop head (file_runner.py lines 111-113): when the in-flight count is
below max_concurrency and the loop had reported BUSY, flip back to ready and
send READY. -/
def readyStep (maxConc : Nat) (st : LoopState) : LoopState :=
  if st.pending.length < maxConc ∧ st.ready = false then
    { st with ready := true, sent := st.sent ++ [.ready] }
  else st

/-- Request-file preamble (file_runner.py lines 148-150): on seeing a request
file while ready, flip to busy and send BUSY. -/
def busyStep (st : LoopState) : LoopState :=
  if st.ready then { st with ready := false, sent := st.sent ++ [.busy] } else st

/-- Directory-scan body for one entry (file_runner.py lines 126-158).  A
cancel file is deleted and, when its pid has an unfinished task, cancellation
is requested (unknown or completed pids only log a warning).  A request file
first triggers the BUSY transition, then is read — a json.load failure
(json.JSONDecodeError, a subclass of ValueError) propagates as the error
component — deleted, and its pid is spawned into the
pending table with no admission-capacity check.  The done argument is the
task.done() oracle. -/
def processEntry (done : String → Bool) (st : LoopState) :
    DirEntry → LoopState × Option PyErr
  | .cancelFile pid =>
    if st.pending.contains pid then
      if done pid then (st, none)
      else ({ st with canceled := st.canceled ++ [pid] }, none)
    else (st, none)
  | .requestFile pid content =>
    let st := busyStep st
    match content with
    | none => (st, some .valueError)
    | some _ => ({ st with pending := insertPid st.pending pid }, none)
  | .otherFile _ => (st, none)

/-- Fold of processEntry over a directory listing; an exception stops the scan
and propagates, keeping the effects performed so far. -/
def processEntries (done : String → Bool) (st : LoopState) :
    List DirEntry → LoopState × Option PyErr
  | [] => (st, none)
  | e :: es =>
    match processEntry done st e with
    | (st', none) => processEntries done st' es
    | (st', some e) => (st', some e)

/-- Outcome of one loop iteration. -/
inductive TickOutcome where
  | ticked
  | stopped
  | errored (e : PyErr)
  deriving DecidableEq, Repr

/-- One iteration of the main loop (file_runner.py lines 110-168): the READY
transition, the stop check (cancel all unfinished tasks and return 0), the
directory scan, and the reaping of completed tasks. -/
def tick (maxConc : Nat) (done : String → Bool) (stopExists : Bool)
    (listing : List DirEntry) (st : LoopState) : LoopState × TickOutcome :=
  let st := readyStep maxConc st
  if stopExists then
    ({ st with canceled := st.canceled ++ st.pending.filter (fun p => !done p) }, .stopped)
  else
    match processEntries done st listing with
    | (st', some e) => (st', .errored e)
    | (st', none) =>
      ({ st' with pending := st'.pending.filter (fun p => !done p) }, .ticked)

/-- Response statuses (the status field of the response dict). -/
inductive Status where
  | starting
  | processing
  | succeeded
  | failed
  | canceled
  deriving DecidableEq, Repr

/-- How a prediction task ends: normal return, CancelationException or
asyncio.CancelledError, or any other exception (including an input decoding
failure). -/
inductive Terminal where
  | success
  | canceled
  | failure
  deriving DecidableEq, Repr

/-- Status recorded in the final response (file_runner.py lines 221-235). -/
def termStatus : Terminal → Status
  | .success => .succeeded
  | .canceled => .canceled
  | .failure => .failed

/-- Incremental emissions of the iterator loop (file_runner.py lines
203-211): one processing response per yield when a webhook is set, none
otherwise; returns the emissions and the epoch counter after the loop. -/
def iterEmits (webhook : Bool) (epoch : Nat) : Nat → List (Nat × Status) × Nat
  | 0 => ([], epoch)
  | yields + 1 =>
    if webhook then
      let r := iterEmits webhook (epoch + 1) yields
      ((epoch, .processing) :: r.1, r.2)
    else iterEmits webhook epoch yields

/-- Emission trace of one prediction task, FileRunner._predict (file_runner.py
lines 170-246): with a webhook the starting response goes out at epoch 0 and
the counter moves to 1; an iterator predictor then emits one processing
response per yield (webhook only); the final response — succeeded, failed or
canceled — always goes out at the current counter.  yields is the number of
items the iterator produced before terminating; a scalar predictor never
emits incrementally. -/
def predictEmissions (isIter webhook : Bool) (yields : Nat) (t : Terminal) :
    List (Nat × Status) :=
  let s0 : List (Nat × Status) × Nat :=
    if webhook then ([(0, .starting)], 1) else ([], 0)
  let s1 : List (Nat × Status) × Nat :=
    if isIter then iterEmits webhook s0.2 yields else ([], s0.2)
  s0.1 ++ s1.1 ++ [(s1.2, termStatus t)]

/-- Filesystem and IPC operations performed by FileRunner._respond, with paths
kept as directory-name pairs. -/
inductive FsOp where
  | mkstemp (dir name : String)
  | writeFile (dir name : String) (body : String)
  | rename (srcDir srcName dstDir dstName : String)
  | ipcSend (s : Ipc)
  deriving DecidableEq, Repr

/-- Left-pad a numeral to five digits, as the {epoch:05d} format does. -/
def pad5 (n : Nat) : String :=
  let s := toString n
  String.mk (List.replicate (5 - s.length) '0') ++ s

/-- Name produced by tempfile.mkstemp(suffix='.json',
prefix='response-{pid}-{epoch}') (file_runner.py lines 260-262): the prefix —
with the epoch unpadded — then random characters, then the suffix. -/
def tempName (pid : String) (epoch : Nat) (rand : String) : String :=
  "response-" ++ pid ++ "-" ++ toString epoch ++ rand ++ ".json"

/-- RESPONSE_FMT (file_runner.py line 26): the final response file name, with
the epoch zero-padded to five digits. -/
def responseName (pid : String) (epoch : Nat) : String :=
  "response-" ++ pid ++ "-" ++ pad5 epoch ++ ".json"

/-- Operation trace of FileRunner._respond (file_runner.py lines 247-270):
create a temporary file — mkstemp is called with no dir argument, so it lands
in the system default temporary directory tmpDir, not the working directory —
write the complete serialized body to it, rename it onto the response path in
the working directory, and send OUTPUT.  rand stands for the random part of
the mkstemp name; the merge of recorded metrics into the body happens before
serialization and is part of body. -/
def respondOps (tmpDir workingDir pid : String) (epoch : Nat) (rand body : String) :
    List FsOp :=
  [ .mkstemp tmpDir (tempName pid epoch rand),
    .writeFile tmpDir (tempName pid epoch rand) body,
    .rename tmpDir (tempName pid epoch rand) workingDir (responseName pid epoch),
    .ipcSend .output ]

/-- Whether an operation writes file content directly at the given path. -/
def writesTo (dir name : String) : FsOp → Bool
  | .writeFile d n _ => d == dir && n == name
  | _ => false

end file_runner

namespace scope

/-- Character strings, processed as lists for the line rewriter. -/
abbrev Str := List Char

/-- s.replace(chr(13), chr(10)): fold carriage returns into newlines. -/
def foldCR (s : Str) : Str :=
  s.map fun c => if c = '\r' then '\n' else c

/-- s.replace with a newline-then-tag image: insert tag after every newline. -/
def injectNL (tag : Str) : Str → Str
  | [] => []
  | c :: cs =>
    if c = '\n' then c :: (tag ++ injectNL tag cs)
    else c :: injectNL tag cs

/-- str.split on newline: n newlines yield n+1 pieces, possibly empty. -/
def splitNL : Str → List Str
  | [] => [[]]
  | c :: cs =>
    match splitNL cs with
    | [] => [[]]
    | h :: t => if c = '\n' then [] :: h :: t else (c :: h) :: t

/-- Buffer lookup buf.get(k). -/
def bufGet (buf : List (String × Str)) (k : String) : Option Str :=
  buf.lookup k

/-- Buffer assignment buf[k] = v. -/
def bufSet (buf : List (String × Str)) (k : String) (v : Str) : List (String × Str) :=
  match buf with
  | [] => [(k, v)]
  | (k0, v0) :: rest => if k0 == k then (k0, v) :: rest else (k0, v0) :: bufSet rest k v

/-- Removal of a key. -/
def bufRemove (buf : List (String × Str)) (k : String) : List (String × Str) :=
  match buf with
  | [] => []
  | (k0, v0) :: rest => if k0 == k then rest else (k0, v0) :: bufRemove rest k

/-- buf.pop(k, chr(0).join([])): remove and return the entry, defaulting to
the empty string. -/
def bufPop (buf : List (String × Str)) (k : String) : Str × List (String × Str) :=
  match bufGet buf k with
  | some v => (v, bufRemove buf k)
  | none => ([], buf)

/-- The line tag the rewriter prepends while a prediction pid is set. -/
def pidTag (p : String) : Str :=
  ("[pid=" ++ p ++ "] ").data

/-- Result of one intercepted write: the strings handed to the underlying
write function, and the new buffer map.  The int the Python function returns
(a character count) is not tracked. -/
structure WriteRes where
  emitted : List Str
  buf : List (String × Str)
  deriving DecidableEq, Repr

/-- Rewriter step, the _write closure produced by scope.ctx_write (scope.py
lines 25-55; coglet/__main__.py lines 73-103 is the identical copy).  An empty
write is a no-op.  The tag is the pid tag when a pid is set and the empty
string otherwise; the buffer key falls back to the string under which
non-prediction output is buffered.  Carriage returns are folded to newlines,
then: a chunk ending in a newline flushes the buffer plus the chunk, with the
tag injected after each interior newline, and re-seeds the buffer with the
tag; a chunk with an interior newline flushes complete lines (each with the
old buffer contents prepended) and buffers the remainder; a chunk with no
newline is appended to the buffer, seeding it with the tag when absent. -/
def ctx_write (pid : Option String) (buf : List (String × Str)) (s : Str) :
    WriteRes :=
  if s.isEmpty then ⟨[], buf⟩ else
  let tag : Str := match pid with | some p => pidTag p | none => []
  let key : String := match pid with | some p => p | none => "logger"
  let s := foldCR s
  if s.getLast? = some '\n' then
    let bp := bufPop buf key
    let out := bp.1 ++ injectNL tag s.dropLast ++ ['\n']
    ⟨[out], bufSet bp.2 key tag⟩
  else if s.contains '\n' then
    let bp := bufPop buf key
    let lines := splitNL (injectNL tag s)
    let first := bp.1 ++ lines.headD [] ++ ['\n']
    let mids := (lines.drop 1).dropLast.map fun l => bp.1 ++ l ++ ['\n']
    ⟨first :: mids, bufSet bp.2 key (lines.getLastD [])⟩
  else
    let buf1 := if (bufGet buf key).isNone then bufSet buf key tag else buf
    ⟨[], bufSet buf1 key (((bufGet buf1 key).getD []) ++ injectNL tag s)⟩

end scope

namespace worker_main

/-- JSON scalar values appearing in config.json. -/
inductive ConfVal where
  | s (v : String)
  | i (n : Int)
  deriving DecidableEq, Repr

/-- Python dict subscript conf[k]: KeyError when the key is absent. -/
def confGet (conf : List (String × ConfVal)) (k : String) : Except PyErr ConfVal :=
  match conf.lookup k with
  | some v => .ok v
  | none => .error (.keyError k)

/-- Config extraction inside pre_setup (coglet/__main__.py lines 28-32): after
json.load and os.unlink, the code reads conf with the module-name key and the
class-name key; no other key — in particular no max_concurrency — is read. -/
def readConf (conf : List (String × ConfVal)) : Except PyErr (ConfVal × ConfVal) :=
  match confGet conf "module_name" with
  | .error e => .error e
  | .ok m =>
    match confGet conf "class_name" with
    | .error e => .error e
    | .ok c => .ok (m, c)

/-- Polling loop of pre_setup (coglet/__main__.py lines 23-47): check for the
config file, sleep 0.01 s, and add 0.01 to elapsed while elapsed < 60.0 —
6000 iterations in all (the float accumulation is modelled exactly).  appears
tells whether the file exists at iteration k; the result is the iteration at
which it was found, or none — upon which pre_setup returns None and main
exits with a nonzero code. -/
def pollLoop (appears : Nat → Bool) : Nat → Nat → Option Nat
  | 0, _ => none
  | fuel + 1, k => if appears k then some k else pollLoop appears fuel (k + 1)

/-- Bounded wait for config.json: up to 6000 polls of 0.01 s, i.e. 60 s. -/
def waitForConf (appears : Nat → Bool) : Option Nat :=
  pollLoop appears 6000 0

end worker_main

end Coglet


namespace Coglet

/-! Helper lemmas shared by the claim theorems. -/

theorem mem_insertPid (l : List String) (a : String) : a ∈ file_runner.insertPid l a := by
  unfold file_runner.insertPid
  by_cases h : a ∈ l <;> simp [h]

theorem busyStep_pending (st : file_runner.LoopState) :
    (file_runner.busyStep st).pending = st.pending := by
  unfold file_runner.busyStep
  split <;> rfl

theorem readyStep_ready (m : Nat) (st : file_runner.LoopState) :
    (file_runner.readyStep m st).ready = (decide (st.pending.length < m) || st.ready) := by
  unfold file_runner.readyStep
  by_cases h : st.pending.length < m ∧ st.ready = false
  · simp [h, h.1, h.2]
  · by_cases hr : st.ready
    · simp [h, hr]
    · have hm : ¬ st.pending.length < m := by
        intro hlt
        exact h ⟨hlt, by simpa using hr⟩
      simp [h, hr, hm]

theorem readyStep_sent (m : Nat) (st : file_runner.LoopState) :
    (file_runner.readyStep m st).sent
      = (if st.pending.length < m ∧ st.ready = false
         then st.sent ++ [file_runner.Ipc.ready] else st.sent) := by
  unfold file_runner.readyStep
  split <;> simp_all

theorem iterEmits_false (e y : Nat) : file_runner.iterEmits false e y = ([], e) := by
  induction y generalizing e with
  | zero => rfl
  | succ n ih => simpa [file_runner.iterEmits] using ih e

theorem iterEmits_true (e y : Nat) :
    file_runner.iterEmits true e y
      = ((List.range y).map (fun k => (e + k, file_runner.Status.processing)), e + y) := by
  induction y generalizing e with
  | zero => rfl
  | succ n ih =>
    simp [file_runner.iterEmits, ih (e + 1), List.range_succ_eq_map, List.map_map,
      Function.comp, Nat.add_comm, Nat.add_assoc, Nat.add_left_comm]

theorem pollLoop_never (fuel k : Nat) :
    worker_main.pollLoop (fun _ => false) fuel k = none := by
  induction fuel generalizing k with
  | zero => rfl
  | succ n ih => simpa [worker_main.pollLoop] using ih (k + 1)

theorem foldCR_cons (c : Char) (cs : scope.Str) :
    scope.foldCR (c :: cs) = (if c = '\r' then '\n' else c) :: scope.foldCR cs := rfl

theorem foldCR_eq_self {s : scope.Str} (h : '\r' ∉ s) : scope.foldCR s = s := by
  induction s with
  | nil => rfl
  | cons c cs ih =>
    have h' : ¬('\r' = c ∨ '\r' ∈ cs) := by simpa [List.mem_cons] using h
    rw [foldCR_cons, if_neg (fun hc => h' (Or.inl hc.symm)),
      ih (fun hm => h' (Or.inr hm))]

theorem foldCR_foldCR (s : scope.Str) :
    scope.foldCR (scope.foldCR s) = scope.foldCR s := by
  induction s with
  | nil => rfl
  | cons c cs ih =>
    rw [foldCR_cons, foldCR_cons, ih]
    congr 1
    by_cases hc : c = '\r' <;> simp [hc]

theorem foldCR_isEmpty (s : scope.Str) : (scope.foldCR s).isEmpty = s.isEmpty := by
  cases s <;> rfl

theorem injectNL_no_nl {tag s : scope.Str} (h : '\n' ∉ s) :
    scope.injectNL tag s = s := by
  induction s with
  | nil => rfl
  | cons c cs ih =>
    have h' : ¬('\n' = c ∨ '\n' ∈ cs) := by simpa [List.mem_cons] using h
    simp only [scope.injectNL]
    rw [if_neg (fun hc : c = '\n' => h' (Or.inl hc.symm)),
      ih (fun hm => h' (Or.inr hm))]

theorem bufGet_bufSet (buf : List (String × scope.Str)) (k : String) (v : scope.Str) :
    scope.bufGet (scope.bufSet buf k v) k = some v := by
  induction buf with
  | nil => simp [scope.bufGet, scope.bufSet, List.lookup]
  | cons p rest ih =>
    rcases p with ⟨k0, v0⟩
    by_cases hk : k0 = k
    · subst hk
      simp [scope.bufGet, scope.bufSet, List.lookup]
    · have h1 : (k0 == k) = false := beq_eq_false_iff_ne.mpr hk
      have h2 : (k == k0) = false := beq_eq_false_iff_ne.mpr (Ne.symm hk)
      simp only [scope.bufSet, h1, Bool.false_eq_true, if_false]
      simpa [scope.bufGet, List.lookup, h2] using ih

/-! Claim theorems. -/

/-- C1, counterexample: with max_concurrency = 1 and one in-flight task — the
count is not below the cap — a tick that sees request-b.json still reads it
and spawns the task, so the in-flight count reaches 2 and the cap of the
claim is violated. -/
theorem c1_cap_counterexample :
    ¬ (["a"] : List String).length < 1 ∧
    file_runner.tick 1 (fun _ => false) false
      [.requestFile "b" (some {})]
      { pending := ["a"], ready := false, sent := [], canceled := [] }
    = ({ pending := ["a", "b"], ready := false, sent := [], canceled := [] },
        .ticked) :=
  ⟨by decide, rfl⟩

/-- C1 (amended): the main loop enforces no admission cap.  Every
request-pid.json with valid JSON that the directory scan reaches is read,
deleted and spawned regardless of the in-flight count (with BUSY reported
when the loop was ready); max_concurrency gates only the READY notification
at the top of the tick, which is re-sent exactly when the in-flight count is
below max_concurrency and the loop was not already ready. -/
theorem c1_admission_uncapped :
    ∀ (done : String → Bool) (st : file_runner.LoopState) (pid : String)
      (r : file_runner.Req),
      (file_runner.processEntry done st (.requestFile pid (some r))).2 = none ∧
      pid ∈ (file_runner.processEntry done st (.requestFile pid (some r))).1.pending ∧
      (file_runner.processEntry done st (.requestFile pid (some r))).1.sent
        = (if st.ready then st.sent ++ [file_runner.Ipc.busy] else st.sent) ∧
      ∀ maxConc : Nat,
        (file_runner.readyStep maxConc st).ready
          = (decide (st.pending.length < maxConc) || st.ready) ∧
        (file_runner.readyStep maxConc st).sent
          = (if st.pending.length < maxConc ∧ st.ready = false
             then st.sent ++ [file_runner.Ipc.ready] else st.sent) := by
  intro done st pid r
  refine ⟨rfl, ?_, ?_, fun maxConc => ⟨readyStep_ready maxConc st, readyStep_sent maxConc st⟩⟩
  · simpa [file_runner.processEntry, busyStep_pending] using
      mem_insertPid (file_runner.busyStep st).pending pid
  · simp only [file_runner.processEntry, file_runner.busyStep]
    split <;> rfl

/-- C2, counterexample: FileRunner._respond calls tempfile.mkstemp with no
dir argument, so the temporary file is created in the system temporary
directory ("/tmp" here), while the final response file lives in the working
directory ("/srv" here) — not in the same directory as the claim states. -/
theorem c2_tempdir_counterexample :
    file_runner.respondOps "/tmp" "/srv" "a" 0 "Ab3x" "null"
      = [ .mkstemp "/tmp" (file_runner.tempName "a" 0 "Ab3x"),
          .writeFile "/tmp" (file_runner.tempName "a" 0 "Ab3x") "null",
          .rename "/tmp" (file_runner.tempName "a" 0 "Ab3x") "/srv"
            (file_runner.responseName "a" 0),
          .ipcSend .output ] ∧
    ("/tmp" : String) ≠ "/srv" :=
  ⟨rfl, by decide⟩

/-- C2 (amended): every response emission writes the complete JSON body to a
temporary file created in the system default temporary directory (not the
directory of the final response file), then renames it onto
response-pid-epoch.json in the working directory; the final response path is
never written directly, so it only ever appears bearing the complete body. -/
theorem c2_respond_atomic_amended :
    ∀ (tmp wd pid : String) (epoch : Nat) (rand body : String),
      tmp ≠ wd →
      (file_runner.respondOps tmp wd pid epoch rand body).headD (.ipcSend .output)
        = .mkstemp tmp (file_runner.tempName pid epoch rand) ∧
      (file_runner.respondOps tmp wd pid epoch rand body)[1]?
        = some (.writeFile tmp (file_runner.tempName pid epoch rand) body) ∧
      (file_runner.respondOps tmp wd pid epoch rand body)[2]?
        = some (.rename tmp (file_runner.tempName pid epoch rand) wd
            (file_runner.responseName pid epoch)) ∧
      (file_runner.respondOps tmp wd pid epoch rand body).all
        (fun op => !(file_runner.writesTo wd (file_runner.responseName pid epoch) op))
        = true := by
  intro tmp wd pid epoch rand body hne
  refine ⟨rfl, rfl, rfl, ?_⟩
  simp [file_runner.respondOps, file_runner.writesTo,
    beq_eq_false_iff_ne.mpr hne]

/-- C2 witness: the amended emission facts at a concrete emission. -/
theorem c2_respond_atomic_witness :
    (("/tmp" : String) ≠ "/srv") ∧
    ((file_runner.respondOps "/tmp" "/srv" "a" 0 "Ab" "null").headD (.ipcSend .output)
        = .mkstemp "/tmp" (file_runner.tempName "a" 0 "Ab") ∧
      (file_runner.respondOps "/tmp" "/srv" "a" 0 "Ab" "null")[1]?
        = some (.writeFile "/tmp" (file_runner.tempName "a" 0 "Ab") "null") ∧
      (file_runner.respondOps "/tmp" "/srv" "a" 0 "Ab" "null")[2]?
        = some (.rename "/tmp" (file_runner.tempName "a" 0 "Ab") "/srv"
            (file_runner.responseName "a" 0)) ∧
      (file_runner.respondOps "/tmp" "/srv" "a" 0 "Ab" "null").all
        (fun op => !(file_runner.writesTo "/srv" (file_runner.responseName "a" 0) op))
        = true) :=
  ⟨by decide, c2_respond_atomic_amended "/tmp" "/srv" "a" 0 "Ab" "null" (by decide)⟩

/-- C10: a request file whose content is not valid JSON makes json.load raise
inside the directory scan; the scan stops there (the result does not depend
on the remaining entries), no task is spawned for the pid — so no response,
failed or otherwise, is ever written for it — and the error propagates out of
the tick as an errored outcome. -/
theorem c10_bad_json_propagates :
    ∀ (done : String → Bool) (st : file_runner.LoopState) (pid : String)
      (rest : List file_runner.DirEntry) (maxConc : Nat),
      file_runner.processEntries done st (.requestFile pid none :: rest)
        = (file_runner.busyStep st, some .valueError) ∧
      (file_runner.busyStep st).pending = st.pending ∧
      (file_runner.tick maxConc done false (.requestFile pid none :: rest) st).2
        = .errored .valueError := by
  intro done st pid rest maxConc
  refine ⟨?_, busyStep_pending st, ?_⟩
  · simp [file_runner.processEntries, file_runner.processEntry]
  · simp [file_runner.tick, file_runner.processEntries, file_runner.processEntry]

theorem range_two_shift (y : Nat) :
    0 :: ((List.range y).map (fun k => k + 1) ++ [y + 1]) = List.range (y + 2) := by
  rw [List.range_succ, List.range_succ_eq_map]
  simp [Nat.succ_eq_add_one]

/-- C3: epochs of the responses emitted for one prediction form exactly
0, 1, 2, ... with no gaps; with no webhook exactly one response — the final
one — is emitted, at epoch 0; with a webhook the first emission is the
starting response at epoch 0 and each later emission uses the next epoch. -/
theorem c3_epoch_ordering :
    ∀ (isIter : Bool) (yields : Nat) (t : file_runner.Terminal),
      (∀ webhook : Bool,
        (file_runner.predictEmissions isIter webhook yields t).map Prod.fst
          = List.range (file_runner.predictEmissions isIter webhook yields t).length) ∧
      file_runner.predictEmissions isIter false yields t
        = [(0, file_runner.termStatus t)] ∧
      (file_runner.predictEmissions isIter true yields t).head?
        = some (0, .starting) := by
  intro isIter yields t
  refine ⟨?_, ?_, ?_⟩
  · intro webhook
    cases isIter with
    | false =>
      cases webhook <;> simp [file_runner.predictEmissions, List.range_succ]
    | true =>
      cases webhook with
      | false =>
        simp [file_runner.predictEmissions, iterEmits_false, List.range_succ]
      | true =>
        simp [file_runner.predictEmissions, iterEmits_true, Function.comp_def]
        rw [show yields + 1 + 1 = yields + 2 from rfl, ← range_two_shift yields]
        simp [Nat.add_comm]
  · cases isIter <;>
      simp [file_runner.predictEmissions, iterEmits_false]
  · cases isIter <;>
      simp [file_runner.predictEmissions, iterEmits_false, iterEmits_true]

/-- C4: the ge/le/min_length/max_length checks in both runner._kwargs and
inspector.check_input assert generator expressions, which are always truthy,
so a violating value sails through validation and is handed to predict.
Evaluations at failing inputs: an integer input with ge = 0 accepts -5, and a
string input with max_length = 2 accepts a seven-character string. -/
theorem c4_bounds_not_enforced :
    inspector.check_input
      [{ name := "x", order := 0, primitive := .INTEGER, repetition := .REQUIRED,
         ge := some 0 }]
      [("x", .vInt (-5))] = .ok [("x", .vInt (-5))] ∧
    inspector.check_input
      [{ name := "s", order := 0, primitive := .STRING, repetition := .REQUIRED,
         max_length := some 2 }]
      [("s", .vStr "toolong")] = .ok [("s", .vStr "toolong")] ∧
    runner._kwargs
      [{ name := "x", order := 0, tpe := .INTEGER, ge := some 0 }]
      [("x", .vInt (-5))] = .ok [("x", .vInt (-5))] :=
  ⟨rfl, rfl, rfl⟩

/-- C5: unknown input keys do fail validation, but a declared required input
with no default that is absent from the request does not — check_input's
missing-input assert is 'default is not None or adt_in', which is always
truthy, so the input is silently bound to None; and runner._kwargs rejects
any absent input without a default, with no carve-out at all.  The second
conjunct is the evaluation at the failing input of the claim. -/
theorem c5_missing_unknown_behavior :
    inspector.check_input
      [{ name := "x", order := 0, primitive := .INTEGER, repetition := .REQUIRED }]
      [("y", .vInt 1)] = .error .assertionError ∧
    inspector.check_input
      [{ name := "x", order := 0, primitive := .INTEGER, repetition := .REQUIRED }]
      [] = .ok [("x", .vNone)] ∧
    inspector.check_input
      [{ name := "x", order := 0, primitive := .INTEGER, repetition := .OPTIONAL }]
      [] = .ok [("x", .vNone)] ∧
    runner._kwargs
      [{ name := "x", order := 0, tpe := .INTEGER }]
      [] = .error .assertionError :=
  ⟨rfl, rfl, rfl, rfl⟩

/-- C7, counterexample: a Secret constructed with no underlying value encodes
through util.json_value as the empty string, not as the ten-asterisk mask the
claim requires for every Secret. -/
theorem c7_secret_empty_counterexample :
    util.json_value .SECRET (.vSecret { secret_value := none }) = .ok (.vStr "") ∧
    ("" : String) ≠ "**********" :=
  ⟨rfl, by decide⟩

/-- C7 (amended): JSON-encoding a Secret that carries a value yields exactly
the ten-asterisk mask, and the raw value stays readable through
get_secret_value; a Secret constructed with no underlying value encodes as
the empty string instead. -/
theorem c7_secret_mask_amended :
    (∀ s : String,
      util.json_value .SECRET (.vSecret { secret_value := some s })
        = .ok (.vStr "**********")) ∧
    (∀ s : String, Secret.get_secret_value { secret_value := some s } = some s) ∧
    (∀ s : String, Secret.str { secret_value := some s } = "**********") ∧
    util.json_value .SECRET (.vSecret { secret_value := none }) = .ok (.vStr "") ∧
    Secret.str { secret_value := none } = "" :=
  ⟨fun _ => rfl, fun _ => rfl, fun _ => rfl, rfl, rfl⟩

/-- C8: pre_setup does poll for config.json for up to 60 seconds (6000 polls
of 0.01 s) and gives up — the worker exits — when it never appears; but the
configuration it reads has shape with the module-name and class-name keys
only: on the shape the claim states, which the repository's own tests and
file_runner.Config use — module_name, predictor_name, max_concurrency — the
read raises KeyError for the class-name key, and max_concurrency is never
read at all. -/
theorem c8_config_shape_bug :
    worker_main.readConf
      [("module_name", .s "m"), ("predictor_name", .s "P"), ("max_concurrency", .i 2)]
      = .error (.keyError "class_name") ∧
    (∀ m c : String,
      worker_main.readConf [("module_name", .s m), ("class_name", .s c)]
        = .ok (.s m, .s c)) ∧
    worker_main.waitForConf (fun _ => false) = none :=
  ⟨rfl, fun _ _ => rfl, pollLoop_never 6000 0⟩

/-- C6, counterexample: PrimitiveType.normalize coerces the integer 1 to the
boolean True for the bool primitive (bool(1) == 1 holds in Python, so the
equality assert passes), and a non-numeral string for the integer primitive
fails with ValueError, not TypeError.  Both refute the claim as stated. -/
theorem c6_bool_coerce_counterexample :
    PrimitiveType.normalize .BOOL (.vInt 1) = .ok (.vBool true) ∧
    PrimitiveType.normalize .INTEGER (.vStr "abc") = .error .valueError ∧
    PyErr.valueError ≠ PyErr.typeError :=
  ⟨rfl, rfl, by decide⟩

/-- C6 (amended): normalize widens int to float and wraps a string for the
path and secret primitives as claimed, but an integer for the bool primitive
is coerced whenever it equals its own bool() image — 0 becomes False and 1
becomes True, with only other integers rejected — and the rejection, like
other cast-then-compare mismatches such as an int for the string primitive,
raises AssertionError rather than TypeError.  The pure type test
util.check_value, by contrast, rejects every integer for the bool
primitive. -/
theorem c6_normalize_amended :
    (∀ n : Int, PrimitiveType.normalize .FLOAT (.vInt n) = .ok (.vFloat (n : Rat))) ∧
    (∀ s : String, PrimitiveType.normalize .PATH (.vStr s) = .ok (.vPath s)) ∧
    (∀ s : String,
      PrimitiveType.normalize .SECRET (.vStr s)
        = .ok (.vSecret { secret_value := some s })) ∧
    (∀ n : Int,
      PrimitiveType.normalize .BOOL (.vInt n)
        = if n = 0 then .ok (.vBool false)
          else if n = 1 then .ok (.vBool true)
          else .error .assertionError) ∧
    (∀ n : Int, ∀ c : Bool, util.check_value .BOOL (.vInt n) c = false) ∧
    (∀ n : Int, PrimitiveType.normalize .STRING (.vInt n) = .error .assertionError) := by
  refine ⟨?_, fun _ => rfl, fun _ => rfl, ?_, fun _ _ => rfl, ?_⟩
  · intro n
    simp [PrimitiveType.normalize, pyFloat, pyEq, pyNum]
  · intro n
    by_cases h0 : n = 0
    · subst h0
      rfl
    · by_cases h1 : n = 1
      · subst h1
        rfl
      · have hb : (n != 0) = true := by simpa [bne_iff_ne] using h0
        have hne : pyEq (.vBool true) (.vInt n) = false := by
          simp only [pyEq, pyNum, if_true]
          simp only [decide_eq_false_iff_not]
          intro hc
          exact h1 (by exact_mod_cast hc.symm)
        simp [PrimitiveType.normalize, pyBool, hb, hne, h0, h1]
  · intro n
    have hne : pyEq (.vStr (pyStr (.vInt n))) (.vInt n) = false := by
      simp [pyEq, pyNum]
    simp [PrimitiveType.normalize, hne]

/-- C9, counterexample: a complete line written while no prediction pid is
set is emitted verbatim — the rewriter computes an empty tag for pid None and
uses the logger name only as its buffer key — so the line does not carry the
pid-logger tag the claim requires. -/
theorem c9_logger_noprefix_counterexample :
    scope.ctx_write none [] ['h', 'e', 'l', 'l', 'o', '\n']
      = { emitted := [['h', 'e', 'l', 'l', 'o', '\n']], buf := [("logger", [])] } ∧
    (scope.pidTag "logger").isPrefixOf ['h', 'e', 'l', 'l', 'o', '\n'] = false :=
  ⟨rfl, by decide⟩

/-- C9 (amended): the rewriter folds carriage returns into newlines (its
output depends only on the CR-folded input); while a prediction pid p is set
and the buffer for p holds the tag — as it does after any flush — a complete
line is emitted with the tag prepended; a complete line written outside any
prediction (buffered under the logger key) or as the very first write of a
fresh pid, whose buffer is not yet seeded, is emitted with no tag at all. -/
theorem c9_ctx_write_amended :
    (∀ (pid : Option String) (buf : List (String × scope.Str)) (s : scope.Str),
        scope.ctx_write pid buf (scope.foldCR s) = scope.ctx_write pid buf s) ∧
    (∀ (p : String) (buf : List (String × scope.Str)) (line : scope.Str),
        '\n' ∉ line → '\r' ∉ line →
        (scope.ctx_write (some p) (scope.bufSet buf p (scope.pidTag p))
            (line ++ ['\n'])).emitted
          = [scope.pidTag p ++ line ++ ['\n']]) ∧
    (∀ (buf : List (String × scope.Str)) (line : scope.Str),
        '\n' ∉ line → '\r' ∉ line → scope.bufGet buf "logger" = none →
        (scope.ctx_write none buf (line ++ ['\n'])).emitted = [line ++ ['\n']]) ∧
    (∀ (p : String) (buf : List (String × scope.Str)) (line : scope.Str),
        '\n' ∉ line → '\r' ∉ line → scope.bufGet buf p = none →
        (scope.ctx_write (some p) buf (line ++ ['\n'])).emitted = [line ++ ['\n']]) := by
  refine ⟨?_, ?_, ?_, ?_⟩
  · intro pid buf s
    unfold scope.ctx_write
    rw [foldCR_isEmpty, foldCR_foldCR]
  · intro p buf line h1 h2
    have h2' : '\r' ∉ line ++ ['\n'] := by
      intro hm
      rcases List.mem_append.mp hm with hm1 | hm1
      · exact h2 hm1
      · simp at hm1
    simp [scope.ctx_write, foldCR_eq_self h2', scope.bufPop, bufGet_bufSet,
      injectNL_no_nl h1]
  · intro buf line h1 h2 hb
    have h2' : '\r' ∉ line ++ ['\n'] := by
      intro hm
      rcases List.mem_append.mp hm with hm1 | hm1
      · exact h2 hm1
      · simp at hm1
    simp [scope.ctx_write, foldCR_eq_self h2', scope.bufPop, hb,
      injectNL_no_nl h1]
  · intro p buf line h1 h2 hb
    have h2' : '\r' ∉ line ++ ['\n'] := by
      intro hm
      rcases List.mem_append.mp hm with hm1 | hm1
      · exact h2 hm1
      · simp at hm1
    simp [scope.ctx_write, foldCR_eq_self h2', scope.bufPop, hb,
      injectNL_no_nl h1]

/-- C9 witness: the amended rewriter facts at concrete writes. -/
theorem c9_ctx_write_witness :
    (scope.ctx_write (some "a") (scope.bufSet [] "a" (scope.pidTag "a"))
        (['h', 'i'] ++ ['\n'])).emitted
      = [scope.pidTag "a" ++ ['h', 'i'] ++ ['\n']] ∧
    (scope.ctx_write none [] (['h', 'i'] ++ ['\n'])).emitted
      = [['h', 'i'] ++ ['\n']] ∧
    (scope.ctx_write (some "b") [] (['h', 'i'] ++ ['\n'])).emitted
      = [['h', 'i'] ++ ['\n']] :=
  ⟨c9_ctx_write_amended.2.1 "a" [] ['h', 'i'] (by decide) (by decide),
   c9_ctx_write_amended.2.2.1 [] ['h', 'i'] (by decide) (by decide) rfl,
   c9_ctx_write_amended.2.2.2 "b" [] ['h', 'i'] (by decide) (by decide) rfl⟩

end Coglet
